import Mathlib

/-!
Verification development for the dify-my-aws-tools-plugin repository.

The Python sources under src/ are shallowly embedded as Lean definitions:
dictionaries with string keys become association lists, Python truthiness
on optional strings becomes `truthyOpt`, network calls become injected
outcome oracles, and the unbounded polling loops become list or fuel
indexed recursions where one consumed element is one poll.
-/

namespace AwsPlugin

/-- Truthiness of an optional string, as Python evaluates it in a boolean
context: `None` and the empty string are falsy, every other string truthy. -/
def truthyOpt : Option String → Bool
  | none => false
  | some s => !s.isEmpty

/-- Python `a or b` on optional strings: returns `a` when truthy, else `b`
(whatever `b` is, matching Python, which returns the second operand
unevaluated for truthiness). -/
def pyOr (a b : Option String) : Option String :=
  if truthyOpt a then a else b

/-- Python `str` of an optional string, as an f-string renders it:
`None` prints as the text "None". -/
def pyOptStr : Option String → String
  | none => "None"
  | some s => s

/-- Python `str` of a boolean, as an f-string renders it. -/
def pyBoolStr : Bool → String
  | true => "True"
  | false => "False"

/-- Python `str.strip()`: drop whitespace from both ends. -/
def pyStrip (s : String) : String :=
  ((s.toList.dropWhile Char.isWhitespace).reverse.dropWhile Char.isWhitespace).reverse.asString

/-- Test whether the first list is a prefix of the second. -/
def isPrefixList : List Char → List Char → Bool
  | [], _ => true
  | _ :: _, [] => false
  | a :: as, b :: bs => a = b && isPrefixList as bs

/-- Drop the first `n` characters. -/
def dropLen : Nat → List Char → List Char
  | 0, l => l
  | _ + 1, [] => []
  | n + 1, _ :: t => dropLen n t

/-- Split at the first occurrence of `sep`: the characters before it and
the characters after it, or `none` when `sep` does not occur. -/
def breakFirstAux (sep : List Char) : List Char → Option (List Char × List Char)
  | [] => none
  | c :: rest =>
      if isPrefixList sep (c :: rest) then
        some ([], dropLen sep.length (c :: rest))
      else
        match breakFirstAux sep rest with
        | none => none
        | some (pre, post) => some (c :: pre, post)

/-- Split a string at the first occurrence of a separator. -/
def breakOnFirst (s sep : String) : Option (String × String) :=
  (breakFirstAux sep.toList s.toList).map (fun p => (p.1.asString, p.2.asString))

/-- Text before the first occurrence of `sep` (the whole string when
`sep` does not occur): the head of the Python `split(sep)` result. -/
def takeBeforeFirst (s sep : String) : String :=
  match breakOnFirst s sep with
  | some p => p.1
  | none => s

/-- Python `s.split(sep)` for a one-character separator, over the
character list. -/
def splitOnCharList (sep : Char) : List Char → List (List Char)
  | [] => [[]]
  | c :: rest =>
      let r := splitOnCharList sep rest
      if c = sep then
        [] :: r
      else
        match r with
        | [] => [[c]]
        | g :: gs => (c :: g) :: gs

/-- Python `s.split(sep)` for a one-character separator. -/
def pySplitChar (s : String) (sep : Char) : List String :=
  (splitOnCharList sep s.toList).map List.asString

/-- Number of positions where `pattern` occurs in the character list. -/
def countOccAux (pattern : List Char) : List Char → Nat
  | [] => 0
  | c :: rest => (if isPrefixList pattern (c :: rest) then 1 else 0) + countOccAux pattern rest

/-- Number of occurrences of `pattern` inside `s`. -/
def countOccurrences (s pattern : String) : Nat :=
  countOccAux pattern.toList s.toList

/-- Credential fields seen by `provider/utils.py`: each of the three keys
may be missing (`none`) or bound to a string (possibly empty). The same
shape models both the stored provider defaults (`runtime.credentials`)
and the per-call overrides (`tool_parameters`). -/
structure CredInputs where
  aws_access_key_id : Option String
  aws_secret_access_key : Option String
  aws_region : Option String
deriving DecidableEq, Repr

/-- Embedding of `provider/utils.py: resolve_aws_credentials`. The tool
argument of the Python function only supplies `runtime.credentials`, which
is passed here directly as `runtimeCredentials`; `toolParameters` carries
the call-level overrides. Each field is Python `override or default`, and
the region further falls back to the literal "us-east-1". -/
def resolve_aws_credentials (runtimeCredentials toolParameters : CredInputs) : CredInputs :=
  { aws_access_key_id :=
      pyOr toolParameters.aws_access_key_id runtimeCredentials.aws_access_key_id
    aws_secret_access_key :=
      pyOr toolParameters.aws_secret_access_key runtimeCredentials.aws_secret_access_key
    aws_region :=
      pyOr (pyOr toolParameters.aws_region runtimeCredentials.aws_region) (some "us-east-1") }

/-- Embedding of `provider/utils.py: build_credential_signature`: the
3-tuple of the credential fields, used only for equality comparison. -/
def build_credential_signature (c : CredInputs) : Option String × Option String × Option String :=
  (c.aws_access_key_id, c.aws_secret_access_key, c.aws_region)

/-- Attribute dictionary of a tool instance: attribute name to its current
value, where the value `none` models an attribute holding Python `None`
and absence of the key models a missing attribute (`hasattr` false).
Client handles are modelled as strings. -/
abbrev Attrs := List (String × Option String)

/-- Python `setattr`: replace the binding of an existing attribute, or
create the attribute when it is missing. -/
def setAttr : Attrs → String → Option String → Attrs
  | [], n, v => [(n, v)]
  | (k, w) :: rest, n, v =>
      if k = n then (n, v) :: rest else (k, w) :: setAttr rest n v

/-- Python `hasattr`. -/
def hasAttr (a : Attrs) (n : String) : Bool :=
  (List.lookup n a).isSome

/-- Python `getattr(owner, n)` restricted to handle slots: the handle held
by attribute `n`, `none` when the attribute is absent or holds `None`. -/
def getHandle (a : Attrs) (n : String) : Option String :=
  (List.lookup n a).getD none

/-- State of a tool instance as `reset_clients_on_credential_change` sees
it: its attribute dictionary plus the stored credential signature
(`_client_credentials_signature`, absent before the first call). -/
structure Owner where
  attrs : Attrs
  signature : Option (Option String × Option String × Option String)
deriving DecidableEq, Repr

/-- Body of the reset for-loop of `reset_clients_on_credential_change`:
an existing attribute is set to `None`, a missing one is left missing. -/
def resetStep (a : Attrs) (attr : String) : Attrs :=
  if hasAttr a attr then setAttr a attr none else a

/-- The reset for-loop over the listed client attributes, in order. -/
def resetAttrs : Attrs → List String → Attrs
  | a, [] => a
  | a, attr :: rest => resetAttrs (resetStep a attr) rest

/-- Embedding of `provider/utils.py: reset_clients_on_credential_change`:
compute the signature of the given credentials; when it differs from the
stored one (initially absent), set every listed client attribute that
exists to `None`, in list order, then store the new signature. When the
signatures agree nothing is touched. -/
def reset_clients_on_credential_change
    (owner : Owner) (credentials : CredInputs) (clientAttrs : List String) : Owner :=
  let signature := build_credential_signature credentials
  if owner.signature = some signature then
    owner
  else
    { attrs := resetAttrs owner.attrs clientAttrs
      signature := some signature }

/-- One lazy-construction step of the client-init pattern used by the tool
handlers (for example `tools/transcribe_asr.py: TranscribeTool._invoke`):
an attribute that is falsy (absent or `None`) is filled with a freshly
constructed client and recorded as built; a truthy attribute is reused. -/
def constructStep (mkClient : String → String) (acc : Attrs × List String) (attr : String) :
    Attrs × List String :=
  if (getHandle acc.1 attr).isNone then
    (setAttr acc.1 attr (some (mkClient attr)), acc.2 ++ [attr])
  else
    acc

/-- The lazy-construction loop over the listed client attributes. -/
def constructLoop (mkClient : String → String) :
    Attrs × List String → List String → Attrs × List String
  | acc, [] => acc
  | acc, attr :: rest => constructLoop mkClient (constructStep mkClient acc attr) rest

/-- The full per-invocation client-cache step of the handlers: first the
credential-change reset, then lazy construction of every still-empty
listed client. Returns the new owner state and the list of slots whose
client was constructed during this call. -/
def ensureClients (owner : Owner) (credentials : CredInputs) (clientAttrs : List String)
    (mkClient : String → String) : Owner × List String :=
  let o1 := reset_clients_on_credential_change owner credentials clientAttrs
  let built := constructLoop mkClient (o1.attrs, []) clientAttrs
  ({ attrs := built.1, signature := o1.signature }, built.2)

/-! ## Polling loops

The two long-running operations poll their jobs in unbounded `while`
loops. Each loop is embedded over the list of responses the remote
service would return to successive polls: consuming one list element is
performing one poll, and a run that exhausts the list without reaching a
terminal status is reported as `none` together with the number of polls
performed (the real loop would simply keep polling). -/

/-- One response of `get_async_invoke` as `tools/nova_reel.py:
NovaReelTool._wait_for_completion` reads it: the status string, the
output S3 URI, and the optional failureMessage field. -/
structure NovaResp where
  status : String
  videoPath : String
  failureMessage : Option String
deriving DecidableEq, Repr

/-- Terminal outcome of the Nova Reel sync wait loop. -/
inductive NovaOutcome where
  | completed (videoPath : String)
  | failed (message : String)
  | unexpected (status : String)
deriving DecidableEq, Repr

/-- Embedding of the `while True` loop of `tools/nova_reel.py:
NovaReelTool._wait_for_completion`: Completed returns the video path of
the final response, Failed returns the failureMessage of that response
with the literal default "Unknown error", InProgress sleeps and polls
again, and any other status returns the unexpected-status message. The
second component counts the polls performed. -/
def nova_wait_for_completion : List NovaResp → Option NovaOutcome × Nat
  | [] => (none, 0)
  | r :: rest =>
      if r.status = "Completed" then
        (some (.completed r.videoPath), 1)
      else if r.status = "Failed" then
        (some (.failed (r.failureMessage.getD "Unknown error")), 1)
      else if r.status = "InProgress" then
        let p := nova_wait_for_completion rest
        (p.1, p.2 + 1)
      else
        (some (.unexpected r.status), 1)

/-- One response of `get_transcription_job` as `tools/transcribe_asr.py:
TranscribeTool._transcribe_audio` reads it: the TranscriptionJobStatus,
the Transcript.TranscriptFileUri and the FailureReason field that the
service fills on failure (the code never reads the latter). -/
structure TranscribeResp where
  status : String
  transcriptFileUri : String
  failureReason : Option String
deriving DecidableEq, Repr

/-- Embedding of the `while True` loop of `tools/transcribe_asr.py:
TranscribeTool._transcribe_audio`: poll until the status is COMPLETED or
FAILED, sleeping between polls. Returns the terminal response (or `none`
when the supplied responses run out before a terminal status) and the
number of polls performed. -/
def transcribe_wait : List TranscribeResp → Option TranscribeResp × Nat
  | [] => (none, 0)
  | r :: rest =>
      if r.status ∈ ["COMPLETED", "FAILED"] then
        (some r, 1)
      else
        let p := transcribe_wait rest
        (p.1, p.2 + 1)

/-- Embedding of the tail of `TranscribeTool._transcribe_audio` after its
loop: COMPLETED returns the TranscriptFileUri of the final poll response
with no error; any other terminal status returns no URI and the message
naming the status (note the trailing blank of the f-string). The outer
`none` means the loop never observed a terminal status within the
supplied responses. -/
def transcribe_audio_run (polls : List TranscribeResp) :
    Option (Option String × Option String) × Nat :=
  match transcribe_wait polls with
  | (some r, n) =>
      (some (if r.status = "COMPLETED" then
               (some r.transcriptFileUri, none)
             else
               (none, some ("Error: TranscriptionJobStatus:" ++ r.status ++ " "))), n)
  | (none, n) => (none, n)

/-! ## Retry loops

`upload_file_from_url_to_s3` and `_download_and_read_transcript` both
wrap their network work in `while retry_count < max_retries`. Each
attempt is abstracted as an oracle from the attempt index to its
outcome; everything after the outcome is embedded from the source. -/

/-- Outcome of one iteration of the upload loop of
`tools/transcribe_asr.py: upload_file_from_url_to_s3`: the download and
upload succeed, or `requests` raises a transient RequestException, or
boto3 raises a ClientError, or some other exception escapes. -/
inductive UploadAttempt where
  | success
  | transient (err : String)
  | clientError (err : String)
  | other (err : String)
deriving DecidableEq, Repr

/-- Path component of a URL, as `urlparse(url).path` yields it for the
http URLs the uploader receives: the text after the scheme separator and
the authority, with fragment and query stripped. -/
def urlPath (url : String) : String :=
  match breakOnFirst url "://" with
  | some p =>
      let noFragment := takeBeforeFirst p.2 "#"
      let noQuery := takeBeforeFirst noFragment "?"
      match pySplitChar noQuery '/' with
      | [] => ""
      | _ :: segs => String.join (segs.map (fun s => "/" ++ s))
  | none => url

/-- Key derivation of `upload_file_from_url_to_s3` when no `s3_key` is
supplied: take the URL path, cut it at "/file-preview", take the
basename (`os.path.basename`: the part after the last slash), and put it
under "transcribe-files/". -/
def deriveS3Key (url : String) : String :=
  let basePath := takeBeforeFirst (urlPath url) "/file-preview"
  let filename := (pySplitChar basePath '/').getLastD ""
  "transcribe-files/" ++ filename

/-- Loop body of `upload_file_from_url_to_s3`, with `idx` the current
`retry_count` and `remaining` the iterations the guard
`retry_count < max_retries` still allows (`maxRetries - idx`, making the
while loop structural). A transient failure increments the count and
gives up with the attempt-count message exactly when the count reaches
`maxRetries`; ClientError and unexpected exceptions return their own
terminal messages at once; success returns the `s3://` locator built
from the bucket and the given or derived key. The second component
counts the attempts performed. -/
def uploadLoop (att : Nat → UploadAttempt) (url bucket : String) (s3Key : Option String)
    (maxRetries : Nat) : Nat → Nat → (Option String × String) × Nat
  | idx, 0 => ((none, "Maximum retries exceeded"), idx)
  | idx, remaining + 1 =>
      match att idx with
      | .success =>
          let key := if truthyOpt s3Key then s3Key.getD "" else deriveS3Key url
          let locator := "s3://" ++ bucket ++ "/" ++ key
          ((some locator, "Successfully uploaded file to " ++ locator), idx + 1)
      | .transient e =>
          if idx + 1 = maxRetries then
            ((none, "Failed to download file from URL after " ++ toString maxRetries
                ++ " attempts: " ++ e), idx + 1)
          else
            uploadLoop att url bucket s3Key maxRetries (idx + 1) remaining
      | .clientError e => ((none, "AWS S3 error: " ++ e), idx + 1)
      | .other e => ((none, "Unexpected error: " ++ e), idx + 1)

/-- Embedding of `tools/transcribe_asr.py: upload_file_from_url_to_s3`:
the input validation, then the retry loop starting at `retry_count = 0`
with the full iteration budget. The Python success value `False` of the
validation branch and `None` of the failure branches are both modelled
as `none`. -/
def upload_file_from_url_to_s3 (att : Nat → UploadAttempt) (url bucket s3Key : Option String)
    (maxRetries : Nat) : (Option String × String) × Nat :=
  if !truthyOpt url || !truthyOpt bucket then
    ((none, "URL and bucket name are required"), 0)
  else
    uploadLoop att (url.getD "") (bucket.getD "") s3Key maxRetries 0 maxRetries

/-! ## Transcript reconstruction

`TranscribeTool._download_and_read_transcript` turns the transcript JSON
into a speaker-labelled string. Start times are the JSON strings the
service emits (times key a Python dict by their string form). -/

/-- One element of `results.items`: its type ("pronunciation" or
"punctuation"), its start_time (never read for punctuation items, which
carry none in the service JSON) and `alternatives[0].content`. -/
structure TItem where
  itemType : String
  start_time : String
  content : String
deriving DecidableEq, Repr

/-- One element of a `segments[_].items` list: just its start_time. -/
structure SegItem where
  start_time : String
deriving DecidableEq, Repr

/-- One element of `results.speaker_labels.segments`. -/
structure Segment where
  speaker_label : String
  items : List SegItem
deriving DecidableEq, Repr

/-- Python dict assignment `d[k] = v` on an association list: replace the
first binding of `k`, or append a new one. -/
def dictInsert {β : Type} (m : List (String × β)) (k : String) (v : β) : List (String × β) :=
  match m with
  | [] => [(k, v)]
  | (k0, v0) :: rest => if k0 = k then (k, v) :: rest else (k0, v0) :: dictInsert rest k v

/-- Embedding of the `time_to_speaker` construction: for each segment in
order, for each of its items in order, bind the start time to the
speaker label of the segment (later segments overwrite earlier ones). -/
def buildTimeToSpeaker (segments : List Segment) : List (String × String) :=
  segments.foldl
    (fun m seg => seg.items.foldl (fun m it => dictInsert m it.start_time seg.speaker_label) m)
    []

/-- Walk state of the reconstruction loop: `current_speaker` starts as
Python `None` and holds the last looked-up speaker (`none` also when the
lookup missed), and `parts` collects the emitted fragments. -/
structure WalkState where
  current_speaker : Option String
  parts : List String
deriving DecidableEq, Repr

/-- Speaker-change marker fragment, the f-string `"\n[{speaker}]: "`
applied to the looked-up (optional) speaker. -/
def markerFragment (speaker : Option String) : String :=
  "\n[" ++ pyOptStr speaker ++ "]: "

/-- Loop body of the reconstruction walk: a punctuation item appends its
content and moves on; a pronunciation item looks its start time up in
the map and, when the resolved speaker differs from `current_speaker`,
records the new speaker and emits the marker before the content. -/
def processItem (timeToSpeaker : List (String × String)) (s : WalkState) (item : TItem) :
    WalkState :=
  if item.itemType = "punctuation" then
    { s with parts := s.parts ++ [item.content] }
  else
    let speaker := List.lookup item.start_time timeToSpeaker
    if speaker ≠ s.current_speaker then
      { current_speaker := speaker
        parts := s.parts ++ [markerFragment speaker, item.content] }
    else
      { s with parts := s.parts ++ [item.content] }

/-- The reconstruction walk over all items, in order. -/
def walkItems (timeToSpeaker : List (String × String)) : WalkState → List TItem → WalkState
  | s, [] => s
  | s, item :: rest => walkItems timeToSpeaker (processItem timeToSpeaker s item) rest

/-- Embedding of the diarized branch of `_download_and_read_transcript`:
build the time-to-speaker map, walk the items from speaker `None` with
no parts, join every part with single blanks and strip the result. -/
def reconstructDiarized (segments : List Segment) (items : List TItem) : String :=
  let timeToSpeaker := buildTimeToSpeaker segments
  let final := walkItems timeToSpeaker { current_speaker := none, parts := [] } items
  pyStrip (String.intercalate " " final.parts)

/-- Fragment of the reconstruction as the claim describes it: either a
speaker-change marker carrying its own leading newline, or plain
content. Used only by the claim-worded rendering below. -/
inductive SpecFragment where
  | marker (speaker : Option String)
  | content (s : String)
deriving DecidableEq, Repr

/-- Walk of the claim-worded reconstruction: the same speaker-change
decisions as the source walk, but the emitted fragments keep their
marker/content tag so the claimed join rule can treat markers apart. -/
def specWalk (timeToSpeaker : List (String × String)) (s : Option String × List SpecFragment)
    (item : TItem) : Option String × List SpecFragment :=
  if item.itemType = "punctuation" then
    (s.1, s.2 ++ [.content item.content])
  else
    let speaker := List.lookup item.start_time timeToSpeaker
    if speaker ≠ s.1 then
      (speaker, s.2 ++ [.marker speaker, .content item.content])
    else
      (s.1, s.2 ++ [.content item.content])

/-- Modelled from the claim wording, not from the source: fragments are
joined with single blanks except where a speaker-change marker was
inserted; a marker contributes its own leading newline and no join blank
is added around it. The boolean accumulator is true while no blank is
owed (at the start and right after a marker). -/
def specJoinFragments (fragments : List SpecFragment) : String :=
  pyStrip (fragments.foldl
    (fun (acc : String × Bool) f =>
      match f with
      | .marker speaker => (acc.1 ++ markerFragment speaker, true)
      | .content s => ((if acc.2 then acc.1 ++ s else acc.1 ++ " " ++ s), false))
    ("", true)).1

/-- Modelled from the claim wording (C8): the reconstruction whose join
rule suppresses the blank around speaker-change markers. Compared
against `reconstructDiarized`, which embeds the source. -/
def specReconstructDiarized (segments : List Segment) (items : List TItem) : String :=
  let timeToSpeaker := buildTimeToSpeaker segments
  specJoinFragments (items.foldl (specWalk timeToSpeaker) (none, [])).2

/-- Transcript JSON as `_download_and_read_transcript` reads it:
`segments` is `results.speaker_labels.segments` when that chain of keys
exists, `items` is `results.items`, and `transcripts` is the list of
`t.get("transcript", "")` values of `results.transcripts` when that key
chain exists. -/
structure TranscriptData where
  segments : Option (List Segment)
  items : List TItem
  transcripts : Option (List String)
deriving DecidableEq, Repr

/-- Embedding of the body of `_download_and_read_transcript` after a
successful fetch and parse: with speaker labels, return the diarized
reconstruction; otherwise join the flat transcripts when present and
non-empty; otherwise report that no transcripts were found. -/
def processTranscriptData (d : TranscriptData) : Option String × Option String :=
  match d.segments with
  | some segs => (some (reconstructDiarized segs d.items), none)
  | none =>
      match d.transcripts with
      | some ts =>
          if ts ≠ [] then
            (some (String.intercalate " " ts), none)
          else
            (none, some "No transcripts found in the response")
      | none => (none, some "No transcripts found in the response")

/-- Outcome of one iteration of the download loop of
`_download_and_read_transcript`: fetch and parse succeed yielding the
transcript JSON, or `requests` raises a transient RequestException, or
the JSON parse fails, or some other exception escapes. -/
inductive DownloadAttempt where
  | ok (d : TranscriptData)
  | transient (err : String)
  | jsonError (err : String)
  | other (err : String)
deriving DecidableEq, Repr

/-- Loop body of `_download_and_read_transcript`, with `idx` the current
`retry_count`: a successful fetch returns the processed data at once
(even when it carries no transcripts); a transient failure retries until
the count reaches `maxRetries`, then gives up with the attempt-count
message; parse and unexpected failures are terminal at once. The second
component counts the attempts performed. -/
def downloadLoop (att : Nat → DownloadAttempt) (maxRetries : Nat) :
    Nat → Nat → (Option String × Option String) × Nat
  | idx, 0 => ((none, some "Maximum retries exceeded"), idx)
  | idx, remaining + 1 =>
      match att idx with
      | .ok d => (processTranscriptData d, idx + 1)
      | .transient e =>
          if idx + 1 = maxRetries then
            ((none, some ("Failed to download transcript file after " ++ toString maxRetries
                ++ " attempts: " ++ e)), idx + 1)
          else
            downloadLoop att maxRetries (idx + 1) remaining
      | .jsonError e => ((none, some ("Failed to parse transcript JSON: " ++ e)), idx + 1)
      | .other e =>
          ((none, some ("Unexpected error while processing transcript: " ++ e)), idx + 1)

/-- Embedding of `tools/transcribe_asr.py:
TranscribeTool._download_and_read_transcript`: the retry loop starting
at `retry_count = 0` with the full iteration budget (`remaining` again
counts the iterations the guard still allows). -/
def download_and_read_transcript (att : Nat → DownloadAttempt) (maxRetries : Nat) :
    (Option String × Option String) × Nat :=
  downloadLoop att maxRetries 0 maxRetries

/-! ## Handler invocation traces

Each `_invoke` generator is embedded as a function from its parameters
and the injected outcomes of its network steps to the ordered list of
events it produces: every yielded message is an event, and so is each
network call, so the traces expose both what a caller receives and
whether a request reached the remote service. -/

/-- Supported language codes, `tools/transcribe_asr.py:
LanguageCodeOptions`. -/
def LanguageCodeOptions : List String :=
  ["af-ZA", "ar-AE", "ar-SA", "da-DK", "de-CH", "de-DE", "en-AB", "en-AU", "en-GB",
   "en-IE", "en-IN", "en-US", "en-WL", "es-ES", "es-US", "fa-IR", "fr-CA", "fr-FR",
   "he-IL", "hi-IN", "id-ID", "it-IT", "ja-JP", "ko-KR", "ms-MY", "nl-NL", "pt-BR",
   "pt-PT", "ru-RU", "ta-IN", "te-IN", "tr-TR", "zh-CN", "zh-TW", "th-TH", "en-ZA",
   "en-NZ", "vi-VN", "sv-SE", "ab-GE", "ast-ES", "az-AZ", "ba-RU", "be-BY", "bg-BG",
   "bn-IN", "bs-BA", "ca-ES", "ckb-IQ", "ckb-IR", "cs-CZ", "cy-WL", "el-GR", "et-ET",
   "eu-ES", "fi-FI", "gl-ES", "gu-IN", "ha-NG", "hr-HR", "hu-HU", "hy-AM", "is-IS",
   "ka-GE", "kab-DZ", "kk-KZ", "kn-IN", "ky-KG", "lg-IN", "lt-LT", "lv-LV", "mhr-RU",
   "mi-NZ", "mk-MK", "ml-IN", "mn-MN", "mr-IN", "mt-MT", "no-NO", "or-IN", "pa-IN",
   "pl-PL", "ps-AF", "ro-RO", "rw-RW", "si-LK", "sk-SK", "sl-SI", "so-SO", "sr-RS",
   "su-ID", "sw-BI", "sw-KE", "sw-RW", "sw-TZ", "sw-UG", "tl-PH", "tt-RU", "ug-CN",
   "uk-UA", "uz-UZ", "wo-SN", "zu-ZA"]

/-- Python `repr` of a list of strings, as an f-string embeds it
(single-quoted elements, comma-blank separated, in square brackets). -/
def pyListRepr (xs : List String) : String :=
  "[" ++ String.intercalate ", " (xs.map (fun s => "\x27" ++ s ++ "\x27")) ++ "]"

/-- Message of `_invoke` for an unsupported entry of language_options. -/
def langOptionMsg (lang : String) : String :=
  lang ++ " is not supported, should be one of " ++ pyListRepr LanguageCodeOptions

/-- Message of `_invoke` for an unsupported language_code. -/
def langCodeMsg (lc : String) : String :=
  "language_code:" ++ lc ++ " is not supported, should be one of "
    ++ pyListRepr LanguageCodeOptions

/-- The mutual-exclusion message of `TranscribeTool._invoke`, an
f-string spread over continuation lines whose leading blanks are part
of the literal. -/
def mutualExclusionMsg (il iml : Bool) : String :=
  "identify_language:" ++ pyBoolStr il ++ ", "
    ++ "                identify_multiple_languages:" ++ pyBoolStr iml ++ ", "
    ++ "                Note that you must include one of LanguageCode, IdentifyLanguage, "
    ++ "                or IdentifyMultipleLanguages in your request. "
    ++ "                If you include more than one of these parameters, "
    ++ "                your transcription job fails."

/-- Parameters of `TranscribeTool._invoke` that steer its validation,
with the defaults of the `.get` calls already applied to the two
booleans (identify_language defaults True, identify_multiple_languages
defaults False). -/
structure TranscribeParams where
  language_code : Option String
  identify_language : Bool
  identify_multiple_languages : Bool
  language_options : Option String
  s3_bucket_name : Option String
deriving DecidableEq, Repr

/-- Event of a `TranscribeTool._invoke` run: a yielded text message
(whose text is `none` when the code passes Python `None`), or one of
its three network steps being entered. -/
inductive TraceEvent where
  | text (s : Option String)
  | uploadCall
  | submitCall
  | fetchCall
deriving DecidableEq, Repr

/-- The validation section of `TranscribeTool._invoke`, in source order:
missing bucket, unsupported language_options entries, unsupported
language_code, then the mutual-exclusion check on
LanguageCode/IdentifyLanguage/IdentifyMultipleLanguages. Every branch
only yields a message; none of them returns. -/
def transcribeValidationEvents (p : TranscribeParams) : List TraceEvent :=
  (if truthyOpt p.s3_bucket_name then [] else [.text (some "s3_bucket_name is required")])
  ++ (if truthyOpt p.language_options then
        ((pySplitChar (p.language_options.getD "") '|').filter
            (fun lang => lang ∉ LanguageCodeOptions)).map
          (fun lang => .text (some (langOptionMsg lang)))
      else [])
  ++ (match p.language_code with
      | some lc => if lc ≠ "" ∧ lc ∉ LanguageCodeOptions then [.text (some (langCodeMsg lc))] else []
      | none => [])
  ++ (if !truthyOpt p.language_code then
        (if p.identify_language && p.identify_multiple_languages then
          [.text (some (mutualExclusionMsg p.identify_language p.identify_multiple_languages))]
         else [])
      else
        (if p.identify_language || p.identify_multiple_languages then
          [.text (some (mutualExclusionMsg p.identify_language p.identify_multiple_languages))]
         else []))

/-- Embedding of the pipeline of `TranscribeTool._invoke` as an event
trace. The three network steps are abstracted by their injected
results: `uploadRes` is the `(s3_path_result, error)` pair of
`upload_file_from_url_to_s3`, `jobRes` the `(transcript_file_uri,
error)` pair of `_transcribe_audio` and `fetchRes` the
`(transcript_text, error)` pair of `_download_and_read_transcript`.
After each step a falsy first component yields the error text, and the
final `create_text_message(text=transcript_text)` is yielded
unconditionally. -/
def transcribeInvoke (p : TranscribeParams) (uploadRes : Option String × String)
    (jobRes fetchRes : Option String × Option String) : List TraceEvent :=
  transcribeValidationEvents p
    ++ [.uploadCall]
    ++ (if truthyOpt uploadRes.1 then [] else [.text (some uploadRes.2)])
    ++ [.submitCall]
    ++ (if truthyOpt jobRes.1 then [] else [.text jobRes.2])
    ++ [.fetchCall]
    ++ (if truthyOpt fetchRes.1 then [] else [.text fetchRes.2])
    ++ [.text fetchRes.1]

/-- Event yielded by the S3 tools: a text message, the binary blob
message, or the structured json message. -/
inductive S3Event where
  | textMsg (s : String)
  | blobMsg
  | jsonMsg
deriving DecidableEq, Repr

/-- Test whether an S3-tool trace is exactly one outcome: a single
failure (or summary) text message, or the single success payload of the
download tool (blob, json, then the metadata text). -/
def isSingleOutcome : List S3Event → Bool
  | [S3Event.textMsg _] => true
  | [S3Event.blobMsg, S3Event.jsonMsg, S3Event.textMsg _] => true
  | _ => false

/-- Scheme of a URI, as urlparse reports it ("" when no "://"). -/
def uriScheme (uri : String) : String :=
  match breakOnFirst uri "://" with
  | some p => p.1
  | none => ""

/-- Network location of a URI, as urlparse reports it. -/
def uriNetloc (uri : String) : String :=
  match breakOnFirst uri "://" with
  | some p => takeBeforeFirst p.2 "/"
  | none => ""

/-- Python `s.lstrip("/")`. -/
def stripLeadingSlashes (s : String) : String :=
  (s.toList.dropWhile (fun c => c = '/')).asString

/-- Embedding of `tools/s3_file_download.py: _build_metadata_text`:
keep the entries whose value is not `None`, render each as
"key: value", join with newlines. -/
def build_metadata_text (metadata : List (String × Option String)) : String :=
  String.intercalate "\n"
    (metadata.filterMap (fun kv => kv.2.map (fun v => kv.1 ++ ": " ++ v)))

/-- Result of the `get_object` call of `S3FileDownload._invoke`: the
successful response fields the handler reads, or one of the exception
classes it catches. -/
inductive S3GetOutcome where
  | ok (contentType : Option String) (contentLength : Option Nat)
       (etag lastModified : Option String)
  | noSuchBucket
  | noSuchKey
  | clientError (msg : String)
  | exn (msg : String)
deriving DecidableEq, Repr

/-- Embedding of `tools/s3_file_download.py: S3FileDownload._invoke`:
client initialization (its failure injected as `initErr`), the s3_uri
parameter checks, the download with its per-exception messages, and on
success the blob, json and metadata-text messages. Every failure path
returns right after its single message. -/
def s3FileDownloadInvoke (initErr : Option String) (s3_uri : Option String)
    (getRes : S3GetOutcome) : List S3Event :=
  match initErr with
  | some e => [.textMsg ("Failed to initialize AWS client: " ++ e)]
  | none =>
      if !truthyOpt s3_uri then
        [.textMsg "s3_uri parameter is required"]
      else
        let uri := s3_uri.getD ""
        if uriScheme uri ≠ "s3" ∨ uriNetloc uri = "" ∨ urlPath uri = "" then
          [.textMsg "Invalid S3 URI format. Use s3://bucket/key"]
        else
          let bucket := uriNetloc uri
          let key := stripLeadingSlashes (urlPath uri)
          match getRes with
          | .noSuchBucket => [.textMsg ("Bucket \x27" ++ bucket ++ "\x27 does not exist")]
          | .noSuchKey =>
              [.textMsg ("Object \x27" ++ key ++ "\x27 does not exist in bucket \x27"
                  ++ bucket ++ "\x27")]
          | .clientError m => [.textMsg ("Failed to download S3 object: " ++ m)]
          | .exn m => [.textMsg ("Failed to download S3 object: " ++ m)]
          | .ok contentType contentLength etag lastModified =>
              let filename := if key ≠ "" then (pySplitChar key '/').getLastD "" else
                "downloaded_file"
              let content_type := (pyOr contentType (some "application/octet-stream")).getD ""
              let metadata : List (String × Option String) :=
                [("bucket", some bucket), ("key", some key),
                 ("content_type", some content_type),
                 ("content_length", contentLength.map toString),
                 ("etag", etag), ("last_modified", lastModified), ("s3_uri", some uri)]
              let metadata_text := build_metadata_text metadata
              let _ := filename
              [.blobMsg, .jsonMsg,
               .textMsg (if metadata_text ≠ "" then metadata_text else
                 "bucket: " ++ bucket ++ "\nkey: " ++ key)]

/-- Python `str` of a botocore ClientError. -/
def clientErrorStr (code operation msg : String) : String :=
  "An error occurred (" ++ code ++ ") when calling the " ++ operation
    ++ " operation: " ++ msg

/-- Result of the `create_table` plus `wait_until_exists` calls of
`DynamoDBManager._create_table`. -/
inductive DynCreateOutcome where
  | ok
  | clientError (code msg : String)
deriving DecidableEq, Repr

/-- Embedding of `tools/dynamodb_manager.py: DynamoDBManager._create_table`:
success returns the created message; a ClientError whose code is
ResourceInUseException returns the already-exists message; any other
ClientError is re-raised (modelled as `Except.error` carrying its
Python rendering). -/
def dynamodb_create_table (tableName : String) (res : DynCreateOutcome) :
    Except String String :=
  match res with
  | .ok => .ok ("Table " ++ tableName ++ " created successfully")
  | .clientError code msg =>
      if code = "ResourceInUseException" then
        .ok ("Table " ++ tableName ++ " already exists")
      else
        .error (clientErrorStr code "CreateTable" msg)

/-- Embedding of the create_table arm of `DynamoDBManager._invoke`: a
string result is yielded as a text message; an escaped exception is
caught by the handler and yielded as "Error: ...". -/
def dynamoCreateTableInvoke (tableName : String) (res : DynCreateOutcome) : List S3Event :=
  match dynamodb_create_table tableName res with
  | .ok s => [.textMsg s]
  | .error e => [.textMsg ("Error: " ++ e)]

/-- Result of the `create_bucket` call of `S3CreateBucket._invoke`: the
successful response with its optional Location, a ClientError with the
message the handler extracts, or another exception. -/
inductive BucketCreateOutcome where
  | ok (location : Option String)
  | clientError (msg : String)
  | exn (msg : String)
deriving DecidableEq, Repr

/-- Embedding of `tools/s3_create_bucket.py: S3CreateBucket._invoke`:
client initialization, the bucket_name check, the create_bucket call
with every ClientError (the already-exists responses included) yielding
the failed message and returning, and on success the json payload
followed by the summary text. -/
def s3CreateBucketInvoke (initErr : Option String) (bucket_name aws_region acl : Option String)
    (res : BucketCreateOutcome) : List S3Event :=
  match initErr with
  | some e => [.textMsg ("Failed to initialize AWS client: " ++ e)]
  | none =>
      let bucket := pyStrip (bucket_name.getD "")
      if bucket = "" then
        [.textMsg "bucket_name parameter is required"]
      else
        let region := (pyOr aws_region (some "us-east-1")).getD ""
        let aclValue := pyStrip (acl.getD "")
        match res with
        | .clientError m => [.textMsg ("Failed to create bucket: " ++ m)]
        | .exn m => [.textMsg ("Failed to create bucket: " ++ m)]
        | .ok location =>
            let loc := (pyOr location (some ("/" ++ bucket))).getD ""
            let _ := aclValue
            [.jsonMsg,
             .textMsg ("Bucket \x27" ++ bucket ++ "\x27 created in " ++ region
                ++ ". Location: " ++ loc)]

/-- Test whether a trace event is a yielded message (as opposed to a
network call). -/
def isTextEvent : TraceEvent → Bool
  | .text _ => true
  | _ => false

/-- Speaker-change transition of one walk step: the `current_speaker`
after processing the item, as a function of the speaker before it. -/
def speakerStep (timeToSpeaker : List (String × String)) (cs : Option String) (item : TItem) :
    Option String :=
  if item.itemType = "punctuation" then
    cs
  else
    let speaker := List.lookup item.start_time timeToSpeaker
    if speaker ≠ cs then speaker else cs

/-- Segments of the worked diarization example of the spec: start time
"0.0" belongs to spk0 and start time "1.0" to spk1. -/
def exSegments : List Segment :=
  [{ speaker_label := "spk0", items := [{ start_time := "0.0" }] },
   { speaker_label := "spk1", items := [{ start_time := "1.0" }] }]

/-- Items of the worked diarization example of the spec: Hello at "0.0",
a comma punctuation, world at "1.0". -/
def exItems : List TItem :=
  [{ itemType := "pronunciation", start_time := "0.0", content := "Hello" },
   { itemType := "punctuation", start_time := "", content := "," },
   { itemType := "pronunciation", start_time := "1.0", content := "world" }]

/-! ## Lemmas on the attribute dictionary -/

theorem lookup_setAttr_self (a : Attrs) (n : String) (v : Option String) :
    List.lookup n (setAttr a n v) = some v := by
  induction a with
  | nil => simp [setAttr, List.lookup_cons]
  | cons kv rest ih =>
      obtain ⟨k, w⟩ := kv
      by_cases h : k = n
      · subst h
        simp [setAttr, List.lookup_cons]
      · have hb : (n == k) = false := beq_eq_false_iff_ne.mpr (Ne.symm h)
        simp [setAttr, h, List.lookup_cons, hb, ih]

theorem lookup_setAttr_ne (a : Attrs) {m n : String} (v : Option String) (h : m ≠ n) :
    List.lookup m (setAttr a n v) = List.lookup m a := by
  have hb : (m == n) = false := beq_eq_false_iff_ne.mpr h
  induction a with
  | nil => simp [setAttr, List.lookup_cons, hb]
  | cons kv rest ih =>
      obtain ⟨k, w⟩ := kv
      by_cases hk : k = n
      · subst hk
        simp [setAttr, List.lookup_cons, hb]
      · simp [setAttr, hk, List.lookup_cons, ih]

theorem hasAttr_setAttr_of (a : Attrs) (n s : String) (v : Option String)
    (h : hasAttr a s = true) : hasAttr (setAttr a n v) s = true := by
  by_cases hs : s = n
  · subst hs
    simp [hasAttr, lookup_setAttr_self]
  · simpa [hasAttr, lookup_setAttr_ne a v hs] using h

theorem lookup_resetStep_none (a : Attrs) (n s : String)
    (h : List.lookup s a = some none) : List.lookup s (resetStep a n) = some none := by
  unfold resetStep
  by_cases hn : hasAttr a n
  · rw [if_pos hn]
    by_cases hs : s = n
    · subst hs
      exact lookup_setAttr_self a s none
    · rw [lookup_setAttr_ne a none hs]
      exact h
  · rw [if_neg hn]
    exact h

theorem hasAttr_resetStep (a : Attrs) (n s : String) (h : hasAttr a s = true) :
    hasAttr (resetStep a n) s = true := by
  unfold resetStep
  by_cases hn : hasAttr a n
  · rw [if_pos hn]
    exact hasAttr_setAttr_of a n s none h
  · rw [if_neg hn]
    exact h

theorem lookup_resetAttrs_of_none (slots : List String) :
    ∀ (a : Attrs) (s : String), List.lookup s a = some none →
      List.lookup s (resetAttrs a slots) = some none := by
  induction slots with
  | nil => intro a s h; exact h
  | cons n rest ih =>
      intro a s h
      exact ih (resetStep a n) s (lookup_resetStep_none a n s h)

theorem lookup_resetAttrs (slots : List String) :
    ∀ (a : Attrs) (s : String), s ∈ slots → hasAttr a s = true →
      List.lookup s (resetAttrs a slots) = some none := by
  induction slots with
  | nil => intro a s hs; cases hs
  | cons n rest ih =>
      intro a s hs h
      rcases List.mem_cons.mp hs with rfl | hs2
      · have hstep : List.lookup s (resetStep a s) = some none := by
          unfold resetStep
          rw [if_pos h]
          exact lookup_setAttr_self a s none
        exact lookup_resetAttrs_of_none rest (resetStep a s) s hstep
      · exact ih (resetStep a n) s hs2 (hasAttr_resetStep a n s h)

theorem reset_signature (o : Owner) (c : CredInputs) (slots : List String) :
    (reset_clients_on_credential_change o c slots).signature
      = some (build_credential_signature c) := by
  simp only [reset_clients_on_credential_change]
  split
  · next h => exact h
  · rfl

theorem reset_of_signature_eq (o : Owner) (c : CredInputs) (slots : List String)
    (h : o.signature = some (build_credential_signature c)) :
    reset_clients_on_credential_change o c slots = o := by
  simp only [reset_clients_on_credential_change]
  rw [if_pos h]

theorem getHandle_constructStep_isSome (mk : String → String) (acc : Attrs × List String)
    (n s : String) (h : (getHandle acc.1 s).isSome = true) :
    (getHandle (constructStep mk acc n).1 s).isSome = true := by
  unfold constructStep
  by_cases hn : (getHandle acc.1 n).isNone
  · rw [if_pos hn]
    by_cases hs : s = n
    · subst hs
      simp [getHandle, lookup_setAttr_self]
    · simpa [getHandle, lookup_setAttr_ne acc.1 (some (mk n)) hs] using h
  · rw [if_neg hn]
    exact h

theorem getHandle_constructStep_self (mk : String → String) (acc : Attrs × List String)
    (n : String) : (getHandle (constructStep mk acc n).1 n).isSome = true := by
  unfold constructStep
  by_cases hn : (getHandle acc.1 n).isNone
  · rw [if_pos hn]
    simp [getHandle, lookup_setAttr_self]
  · rw [if_neg hn]
    simp only [Option.isNone_iff_eq_none] at hn
    exact Option.ne_none_iff_isSome.mp hn

theorem constructLoop_keeps_some (mk : String → String) (slots : List String) :
    ∀ (acc : Attrs × List String) (s : String), (getHandle acc.1 s).isSome = true →
      (getHandle (constructLoop mk acc slots).1 s).isSome = true := by
  induction slots with
  | nil => intro acc s h; exact h
  | cons n rest ih =>
      intro acc s h
      exact ih (constructStep mk acc n) s (getHandle_constructStep_isSome mk acc n s h)

theorem constructLoop_all_some (mk : String → String) (slots : List String) :
    ∀ (acc : Attrs × List String) (s : String), s ∈ slots →
      (getHandle (constructLoop mk acc slots).1 s).isSome = true := by
  induction slots with
  | nil => intro acc s hs; cases hs
  | cons n rest ih =>
      intro acc s hs
      rcases List.mem_cons.mp hs with rfl | hs2
      · exact constructLoop_keeps_some mk rest (constructStep mk acc s) s
          (getHandle_constructStep_self mk acc s)
      · exact ih (constructStep mk acc n) s hs2

theorem constructLoop_noop (mk : String → String) (slots : List String) :
    ∀ (a : Attrs) (l : List String), (∀ s ∈ slots, (getHandle a s).isSome = true) →
      constructLoop mk (a, l) slots = (a, l) := by
  induction slots with
  | nil => intro a l _; rfl
  | cons n rest ih =>
      intro a l h
      rcases Option.isSome_iff_exists.mp (h n (List.mem_cons_self n rest)) with ⟨x, hx⟩
      have hstep : constructStep mk (a, l) n = (a, l) := by
        simp [constructStep, hx]
      rw [constructLoop, hstep]
      exact ih a l (fun s hs => h s (List.mem_cons_of_mem n hs))

theorem ensure_noop (o1 : Owner) (A : CredInputs) (slots : List String) (mk : String → String)
    (h1 : o1.signature = some (build_credential_signature A))
    (h2 : ∀ s ∈ slots, (getHandle o1.attrs s).isSome = true) :
    ensureClients o1 A slots mk = (o1, []) := by
  simp only [ensureClients]
  rw [reset_of_signature_eq o1 A slots h1, constructLoop_noop mk slots o1.attrs [] h2]

/-- Claim C4: with unchanged credential signatures the client-cache reset
is a no-op (repeating it changes nothing, and the ensure pattern of the
handlers constructs no client the second time); with a changed
signature every listed attribute that exists on the owner is set to
`None` before any handle could be read back, and the new signature is
stored. -/
theorem client_cache_reset_and_reuse :
    (∀ (o : Owner) (A B : CredInputs) (slots : List String),
        build_credential_signature A = build_credential_signature B →
        reset_clients_on_credential_change
            (reset_clients_on_credential_change o A slots) B slots
          = reset_clients_on_credential_change o A slots)
  ∧ (∀ (o : Owner) (A : CredInputs) (slots : List String) (mk : String → String),
        ensureClients (ensureClients o A slots mk).1 A slots mk
          = ((ensureClients o A slots mk).1, []))
  ∧ (∀ (o : Owner) (B : CredInputs) (slots : List String),
        o.signature ≠ some (build_credential_signature B) →
        (∀ s ∈ slots, hasAttr o.attrs s = true →
            List.lookup s (reset_clients_on_credential_change o B slots).attrs = some none)
        ∧ (reset_clients_on_credential_change o B slots).signature
            = some (build_credential_signature B)) := by
  refine ⟨?_, ?_, ?_⟩
  · intro o A B slots h
    exact reset_of_signature_eq _ B slots (by rw [reset_signature, h])
  · intro o A slots mk
    have h1 : (ensureClients o A slots mk).1.signature
        = some (build_credential_signature A) := reset_signature o A slots
    have h2 : ∀ s ∈ slots, (getHandle (ensureClients o A slots mk).1.attrs s).isSome = true :=
      fun s hs => constructLoop_all_some mk slots
        ((reset_clients_on_credential_change o A slots).attrs, []) s hs
    exact ensure_noop (ensureClients o A slots mk).1 A slots mk h1 h2
  · intro o B slots h
    constructor
    · intro s hs hhas
      have hne : ¬ o.signature = some (build_credential_signature B) := h
      simp only [reset_clients_on_credential_change]
      rw [if_neg hne]
      exact lookup_resetAttrs slots o.attrs s hs hhas
    · exact reset_signature o B slots

/-- Claim C5: credential resolution is a total pure function with no
error case; for each field a present and non-empty call-level override
wins, otherwise the stored default is used; the region additionally
falls back to the constant "us-east-1" when override and default are
both absent or empty, and a stored default region such as "eu-west-1"
survives when no override is given. -/
theorem resolve_aws_credentials_spec :
    (∀ rc tp : CredInputs, truthyOpt tp.aws_access_key_id = true →
        (resolve_aws_credentials rc tp).aws_access_key_id = tp.aws_access_key_id)
  ∧ (∀ rc tp : CredInputs, truthyOpt tp.aws_access_key_id = false →
        (resolve_aws_credentials rc tp).aws_access_key_id = rc.aws_access_key_id)
  ∧ (∀ rc tp : CredInputs, truthyOpt tp.aws_secret_access_key = true →
        (resolve_aws_credentials rc tp).aws_secret_access_key = tp.aws_secret_access_key)
  ∧ (∀ rc tp : CredInputs, truthyOpt tp.aws_secret_access_key = false →
        (resolve_aws_credentials rc tp).aws_secret_access_key = rc.aws_secret_access_key)
  ∧ (∀ rc tp : CredInputs, truthyOpt tp.aws_region = true →
        (resolve_aws_credentials rc tp).aws_region = tp.aws_region)
  ∧ (∀ rc tp : CredInputs, truthyOpt tp.aws_region = false →
        truthyOpt rc.aws_region = true →
        (resolve_aws_credentials rc tp).aws_region = rc.aws_region)
  ∧ (∀ rc tp : CredInputs, truthyOpt tp.aws_region = false →
        truthyOpt rc.aws_region = false →
        (resolve_aws_credentials rc tp).aws_region = some "us-east-1")
  ∧ (resolve_aws_credentials
        { aws_access_key_id := none, aws_secret_access_key := none,
          aws_region := some "eu-west-1" }
        { aws_access_key_id := none, aws_secret_access_key := none,
          aws_region := none }).aws_region = some "eu-west-1" := by
  refine ⟨?_, ?_, ?_, ?_, ?_, ?_, ?_, ?_⟩
  · intro rc tp h
    simp [resolve_aws_credentials, pyOr, h]
  · intro rc tp h
    simp [resolve_aws_credentials, pyOr, h]
  · intro rc tp h
    simp [resolve_aws_credentials, pyOr, h]
  · intro rc tp h
    simp [resolve_aws_credentials, pyOr, h]
  · intro rc tp h
    simp [resolve_aws_credentials, pyOr, h]
  · intro rc tp h h2
    simp [resolve_aws_credentials, pyOr, h, h2]
  · intro rc tp h h2
    simp [resolve_aws_credentials, pyOr, h, h2]
  · rfl

/-- Claim C1 (amended): for both poll loops a first poll with a terminal
status ends the loop after exactly that one poll, whatever responses
would follow. The sync video wait loop propagates the failureMessage of
the FAILED response, substituting "Unknown error" when the field is
absent, and on Completed returns the video path of that final response;
the transcription loop, however, maps FAILED to the fixed message naming
the status (ignoring any failure reason the response carries) and on
COMPLETED returns the TranscriptFileUri of that final response. -/
theorem poll_loops_first_poll_terminal (r : NovaResp) (t : TranscribeResp)
    (rest : List NovaResp) (trest : List TranscribeResp) :
    (r.status = "Failed" →
        nova_wait_for_completion (r :: rest)
          = (some (.failed (r.failureMessage.getD "Unknown error")), 1))
  ∧ (r.status = "Completed" →
        nova_wait_for_completion (r :: rest) = (some (.completed r.videoPath), 1))
  ∧ (t.status = "FAILED" →
        transcribe_audio_run (t :: trest)
          = (some (none, some "Error: TranscriptionJobStatus:FAILED "), 1))
  ∧ (t.status = "COMPLETED" →
        transcribe_audio_run (t :: trest) = (some (some t.transcriptFileUri, none), 1)) := by
  refine ⟨?_, ?_, ?_, ?_⟩
  · intro h
    simp [nova_wait_for_completion, h]
  · intro h
    simp [nova_wait_for_completion, h]
  · intro h
    simp [transcribe_audio_run, transcribe_wait, h]
  · intro h
    simp [transcribe_audio_run, transcribe_wait, h]

/-- Claim C1 (counterexample): a transcription job that fails on the
first poll with a failure reason in the response yields the fixed
status-naming error, not the carried failure reason; the result is the
same with and without the reason, so the reason is dropped, and no
"unknown error" fallback appears either. -/
theorem transcribe_failed_poll_drops_failure_reason :
    transcribe_audio_run
        [{ status := "FAILED", transcriptFileUri := "",
           failureReason := some "Internal failure" }]
      = (some (none, some "Error: TranscriptionJobStatus:FAILED "), 1)
  ∧ transcribe_audio_run
        [{ status := "FAILED", transcriptFileUri := "",
           failureReason := some "Internal failure" }]
      = transcribe_audio_run
          [{ status := "FAILED", transcriptFileUri := "", failureReason := none }]
  ∧ ("Error: TranscriptionJobStatus:FAILED " : String) ≠ "Internal failure" := by
  refine ⟨rfl, rfl, by decide⟩

/-- Claim C3 (amended): the sync video wait loop maps a status outside
Completed/Failed/InProgress to the unexpected-status protocol outcome
after that single poll, an outcome distinct from every FAILED outcome;
the transcription poll loop instead treats every status other than
COMPLETED and FAILED as still in progress and keeps polling without
ever producing an error (with n such responses it performs all n polls
and is still waiting). -/
theorem unrecognized_status_loop_behaviour (r : NovaResp) (rest : List NovaResp)
    (t : TranscribeResp) (n : Nat) :
    (r.status ∉ ["Completed", "Failed", "InProgress"] →
        nova_wait_for_completion (r :: rest) = (some (.unexpected r.status), 1))
  ∧ (∀ m : String, NovaOutcome.unexpected r.status ≠ NovaOutcome.failed m)
  ∧ (t.status ∉ ["COMPLETED", "FAILED"] →
        transcribe_wait (List.replicate n t) = (none, n)) := by
  refine ⟨?_, ?_, ?_⟩
  · intro h
    simp only [List.mem_cons, List.mem_singleton, not_or] at h
    obtain ⟨h1, h2, h3⟩ := h
    simp [nova_wait_for_completion, h1, h2, h3]
  · intro m hm
    cases hm
  · intro h
    induction n with
    | zero => rfl
    | succ k ih =>
        rw [List.replicate_succ, transcribe_wait]
        simp only [if_neg h, ih]

/-- Claim C3 (counterexample): in the transcription poll loop an
unrecognized status does not terminate the invocation with a protocol
error; the loop polls again (two polls for two unrecognized responses,
still no outcome) and, when a later poll completes, the unrecognized
status has been silently treated as in-progress and the run succeeds. -/
theorem transcribe_unrecognized_status_keeps_polling :
    transcribe_audio_run
        [{ status := "BANANA", transcriptFileUri := "", failureReason := none },
         { status := "BANANA", transcriptFileUri := "", failureReason := none }]
      = (none, 2)
  ∧ transcribe_audio_run
        [{ status := "BANANA", transcriptFileUri := "", failureReason := none },
         { status := "COMPLETED", transcriptFileUri := "s3://out/t.json",
           failureReason := none }]
      = (some (some "s3://out/t.json", none), 2) := by
  refine ⟨rfl, rfl⟩

/-- Claim C2: with the retry bound 3 of both retrying fetchers, two
transient failures followed by a success give a successful result after
exactly 3 attempts, while a source that always fails transiently gives
the terminal error naming the attempt count after exactly 3 attempts
and performs no further attempts. -/
theorem retry_loops_attempt_bound :
    (∀ (e0 e1 : String) (att : Nat → UploadAttempt),
        att 0 = .transient e0 → att 1 = .transient e1 → att 2 = .success →
        upload_file_from_url_to_s3 att (some "http://example.com/audio/a.mp3")
            (some "bkt") none 3
          = ((some "s3://bkt/transcribe-files/a.mp3",
              "Successfully uploaded file to s3://bkt/transcribe-files/a.mp3"), 3))
  ∧ (∀ f : Nat → String,
        upload_file_from_url_to_s3 (fun i => .transient (f i))
            (some "http://example.com/audio/a.mp3") (some "bkt") none 3
          = ((none, "Failed to download file from URL after 3 attempts: " ++ f 2), 3))
  ∧ (∀ (e0 e1 : String) (dat : TranscriptData) (att : Nat → DownloadAttempt),
        att 0 = .transient e0 → att 1 = .transient e1 → att 2 = .ok dat →
        download_and_read_transcript att 3 = (processTranscriptData dat, 3))
  ∧ (∀ g : Nat → String,
        download_and_read_transcript (fun i => .transient (g i)) 3
          = ((none, some ("Failed to download transcript file after 3 attempts: " ++ g 2)),
             3)) := by
  refine ⟨?_, ?_, ?_, ?_⟩
  · intro e0 e1 att h0 h1 h2
    simp [upload_file_from_url_to_s3, truthyOpt, uploadLoop, h0, h1, h2]
    rfl
  · intro f
    simp [upload_file_from_url_to_s3, truthyOpt, uploadLoop]
    rfl
  · intro e0 e1 dat att h0 h1 h2
    simp [download_and_read_transcript, downloadLoop, h0, h1, h2]
  · intro g
    simp [download_and_read_transcript, downloadLoop]
    rfl

/-! ## Lemmas on the reconstruction walk -/

theorem walkItems_append (m : List (String × String)) (s : WalkState) (xs ys : List TItem) :
    walkItems m s (xs ++ ys) = walkItems m (walkItems m s xs) ys := by
  induction xs generalizing s with
  | nil => rfl
  | cons i rest ih =>
      rw [List.cons_append]
      simp only [walkItems]
      exact ih (processItem m s i)

theorem processItem_speaker (m : List (String × String)) (s : WalkState) (i : TItem) :
    (processItem m s i).current_speaker = speakerStep m s.current_speaker i := by
  unfold processItem speakerStep
  by_cases h : i.itemType = "punctuation"
  · simp [h]
  · by_cases h2 : List.lookup i.start_time m ≠ s.current_speaker
    · simp [h, h2]
    · simp [h, h2]

theorem walkItems_speaker (m : List (String × String)) (items : List TItem) :
    ∀ s : WalkState,
      (walkItems m s items).current_speaker
        = items.foldl (speakerStep m) s.current_speaker := by
  induction items with
  | nil => intro s; rfl
  | cons i rest ih =>
      intro s
      simp only [walkItems, List.foldl_cons]
      rw [ih (processItem m s i), processItem_speaker]

/-- Claim C7: a punctuation item is transparent to the reconstruction
walk: wherever it sits in the item sequence, processing it appends
exactly its content (never a speaker-change marker) and leaves
`current_speaker` untouched, so the walk with the punctuation item
resolves the same speakers as the walk without it — whatever its
start time, in particular one inside a different speaker segment. -/
theorem punctuation_items_transparent (m : List (String × String)) (s : WalkState)
    (p : TItem) (pre post : List TItem) (h : p.itemType = "punctuation") :
    walkItems m s (pre ++ p :: post)
      = walkItems m
          { current_speaker := (walkItems m s pre).current_speaker,
            parts := (walkItems m s pre).parts ++ [p.content] } post
  ∧ (walkItems m s (pre ++ p :: post)).current_speaker
      = (walkItems m s (pre ++ post)).current_speaker := by
  have hstep : processItem m (walkItems m s pre) p
      = { current_speaker := (walkItems m s pre).current_speaker,
          parts := (walkItems m s pre).parts ++ [p.content] } := by
    unfold processItem
    rw [if_pos h]
  constructor
  · rw [walkItems_append]
    simp only [walkItems]
    rw [hstep]
  · rw [walkItems_append, walkItems_append,
        walkItems_speaker m (p :: post) (walkItems m s pre),
        walkItems_speaker m post (walkItems m s pre)]
    simp only [List.foldl_cons]
    have hsp : speakerStep m (walkItems m s pre).current_speaker p
        = (walkItems m s pre).current_speaker := by
      unfold speakerStep
      rw [if_pos h]
    rw [hsp]

/-- Witness for C7 at the worked example: inserting the comma
punctuation item between Hello and world leaves the final
`current_speaker` exactly what it is without the comma. -/
theorem punctuation_items_transparent_witness :
    (walkItems [("0.0", "spk0"), ("1.0", "spk1")]
        { current_speaker := none, parts := [] }
        ([{ itemType := "pronunciation", start_time := "0.0", content := "Hello" }]
          ++ { itemType := "punctuation", start_time := "1.0", content := "," }
            :: [{ itemType := "pronunciation", start_time := "1.0", content := "world" }])
      ).current_speaker
      = (walkItems [("0.0", "spk0"), ("1.0", "spk1")]
          { current_speaker := none, parts := [] }
          ([{ itemType := "pronunciation", start_time := "0.0", content := "Hello" }]
            ++ [{ itemType := "pronunciation", start_time := "1.0", content := "world" }])
        ).current_speaker :=
  (punctuation_items_transparent [("0.0", "spk0"), ("1.0", "spk1")]
    { current_speaker := none, parts := [] }
    { itemType := "punctuation", start_time := "1.0", content := "," }
    [{ itemType := "pronunciation", start_time := "0.0", content := "Hello" }]
    [{ itemType := "pronunciation", start_time := "1.0", content := "world" }] rfl).2

/-- Claim C8 (counterexample): on the worked example the source joins
every fragment — markers included — with single blanks, so the output
differs from the claimed join rule that suppresses the blank around a
speaker-change marker. -/
theorem diarized_join_spec_mismatch :
    reconstructDiarized exSegments exItems = "[spk0]:  Hello , \n[spk1]:  world"
  ∧ specReconstructDiarized exSegments exItems = "[spk0]: Hello ,\n[spk1]: world"
  ∧ reconstructDiarized exSegments exItems ≠ specReconstructDiarized exSegments exItems := by
  refine ⟨rfl, rfl, by decide⟩

/-- Claim C8 (amended): the worked example yields exactly one spk0
marker, placed before Hello, exactly one spk1 marker, placed after the
comma and before world, and exactly one comma attached after Hello with
no marker of its own; the fragments, markers included, are all joined
with single blanks (so a blank precedes each marker newline and follows
the marker) and the ends are stripped, giving the exact output shown. -/
theorem diarized_example_output :
    reconstructDiarized exSegments exItems = "[spk0]:  Hello , \n[spk1]:  world"
  ∧ countOccurrences (reconstructDiarized exSegments exItems) "[spk0]" = 1
  ∧ countOccurrences (reconstructDiarized exSegments exItems) "[spk1]" = 1
  ∧ countOccurrences (reconstructDiarized exSegments exItems) "," = 1
  ∧ takeBeforeFirst (reconstructDiarized exSegments exItems) "Hello" = "[spk0]:  "
  ∧ (breakOnFirst (reconstructDiarized exSegments exItems) "Hello").map (fun p => p.2)
      = some " , \n[spk1]:  world" := by
  refine ⟨rfl, rfl, rfl, rfl, rfl, rfl⟩

/-- Claim C6 (amended): whenever more than one of LanguageCode,
IdentifyLanguage and IdentifyMultipleLanguages is supplied (with the
other parameters valid), the transcribe handler yields the
mutual-exclusion message as its very first event, before any network
step — but it does not abort: the upload and the job submission are
still performed, so the violating submission does reach the remote
service. -/
theorem mutual_exclusion_reported_first_but_not_enforced
    (lc : Option String) (il iml : Bool)
    (uploadRes : Option String × String) (jobRes fetchRes : Option String × Option String)
    (hmode : (truthyOpt lc = true ∧ (il || iml) = true)
           ∨ (truthyOpt lc = false ∧ il = true ∧ iml = true))
    (hlc : ∀ s, lc = some s → s ∈ LanguageCodeOptions) :
    (transcribeInvoke
        { language_code := lc, identify_language := il, identify_multiple_languages := iml,
          language_options := none, s3_bucket_name := some "bkt" }
        uploadRes jobRes fetchRes).head?
      = some (.text (some (mutualExclusionMsg il iml)))
  ∧ TraceEvent.submitCall
      ∈ transcribeInvoke
          { language_code := lc, identify_language := il, identify_multiple_languages := iml,
            language_options := none, s3_bucket_name := some "bkt" }
          uploadRes jobRes fetchRes := by
  have hbkt : ("bkt" : String).isEmpty = false := rfl
  have hval : transcribeValidationEvents
      { language_code := lc, identify_language := il, identify_multiple_languages := iml,
        language_options := none, s3_bucket_name := some "bkt" }
      = [.text (some (mutualExclusionMsg il iml))] := by
    rcases hmode with ⟨ht, hor⟩ | ⟨hf, hil, himl⟩
    · rcases lc with _ | s
      · simp [truthyOpt] at ht
      · have hs : s ∈ LanguageCodeOptions := hlc s rfl
        have hne : ¬(s ≠ "" ∧ s ∉ LanguageCodeOptions) := fun hp => hp.2 hs
        have hse : s.isEmpty = false := by simpa [truthyOpt] using ht
        simp [transcribeValidationEvents, truthyOpt, ht, hor, hne, hse, hbkt]
    · rcases lc with _ | s
      · simp [transcribeValidationEvents, truthyOpt, hil, himl, hbkt]
      · have hs : s ∈ LanguageCodeOptions := hlc s rfl
        have hne : ¬(s ≠ "" ∧ s ∉ LanguageCodeOptions) := fun hp => hp.2 hs
        have hse : s.isEmpty = true := by simpa [truthyOpt] using hf
        simp [transcribeValidationEvents, truthyOpt, hf, hil, himl, hne, hse, hbkt]
  constructor
  · unfold transcribeInvoke
    rw [hval]
    rfl
  · unfold transcribeInvoke
    rw [hval]
    simp

/-- Witness for C6 at a concrete violating call: an explicit
LanguageCode "ja-JP" together with IdentifyLanguage. -/
theorem mutual_exclusion_reported_first_but_not_enforced_witness :
    (transcribeInvoke
        { language_code := some "ja-JP", identify_language := true,
          identify_multiple_languages := false, language_options := none,
          s3_bucket_name := some "bkt" }
        (some "s3://bkt/transcribe-files/a.mp3", "ok") (some "https://x/t.json", none)
        (some "transcript", none)).head?
      = some (.text (some (mutualExclusionMsg true false)))
  ∧ TraceEvent.submitCall
      ∈ transcribeInvoke
          { language_code := some "ja-JP", identify_language := true,
            identify_multiple_languages := false, language_options := none,
            s3_bucket_name := some "bkt" }
          (some "s3://bkt/transcribe-files/a.mp3", "ok") (some "https://x/t.json", none)
          (some "transcript", none) :=
  mutual_exclusion_reported_first_but_not_enforced (some "ja-JP") true false
    (some "s3://bkt/transcribe-files/a.mp3", "ok") (some "https://x/t.json", none)
    (some "transcript", none) (Or.inl ⟨rfl, rfl⟩)
    (by intro s hs; cases hs; decide)

/-- Claim C6 (counterexample): with LanguageCode and IdentifyLanguage
both supplied and every network step succeeding, the full trace shows
the validation message followed by the upload and the job submission:
the violating submission reaches the remote service. -/
theorem mutual_exclusion_violation_still_submitted :
    transcribeInvoke
        { language_code := some "ja-JP", identify_language := true,
          identify_multiple_languages := false, language_options := none,
          s3_bucket_name := some "bkt" }
        (some "s3://bkt/transcribe-files/a.mp3", "ok") (some "https://x/t.json", none)
        (some "transcript", none)
      = [.text (some (mutualExclusionMsg true false)), .uploadCall, .submitCall, .fetchCall,
         .text (some "transcript")]
  ∧ TraceEvent.submitCall
      ∈ transcribeInvoke
          { language_code := some "ja-JP", identify_language := true,
            identify_multiple_languages := false, language_options := none,
            s3_bucket_name := some "bkt" }
          (some "s3://bkt/transcribe-files/a.mp3", "ok") (some "https://x/t.json", none)
          (some "transcript", none) := by
  refine ⟨rfl, by decide⟩

/-- Claim C9 (amended): the S3 download handler does return exactly one
outcome — every run of it is a single failure message or the single
blob-json-text success payload; the transcribe handler does not: once
the upload step fails it still yields the later error messages and the
unconditional final text message, so one invocation emits at least two
messages. -/
theorem handler_single_outcome_contrast :
    (∀ (initErr s3_uri : Option String) (getRes : S3GetOutcome),
        isSingleOutcome (s3FileDownloadInvoke initErr s3_uri getRes) = true)
  ∧ (∀ (p : TranscribeParams) (uploadRes : Option String × String)
        (jobRes fetchRes : Option String × Option String),
        truthyOpt uploadRes.1 = false →
        2 ≤ ((transcribeInvoke p uploadRes jobRes fetchRes).filter isTextEvent).length) := by
  constructor
  · intro initErr s3_uri getRes
    rcases initErr with _ | e
    · by_cases hu : truthyOpt s3_uri = true
      · by_cases hv : uriScheme (s3_uri.getD "") ≠ "s3" ∨ uriNetloc (s3_uri.getD "") = ""
          ∨ urlPath (s3_uri.getD "") = ""
        · simp [s3FileDownloadInvoke, hu, hv, isSingleOutcome]
        · rcases getRes with ⟨ct, cl, et, lm⟩ | _ | _ | m | m <;>
            simp [s3FileDownloadInvoke, hu, hv, isSingleOutcome]
      · have hu2 : truthyOpt s3_uri = false := by
          cases h : truthyOpt s3_uri
          · rfl
          · exact absurd h hu
        simp [s3FileDownloadInvoke, hu2, isSingleOutcome]
    · rfl
  · intro p uploadRes jobRes fetchRes hu
    cases hj : truthyOpt jobRes.1 <;> cases hf : truthyOpt fetchRes.1 <;>
      simp [transcribeInvoke, hu, hj, hf, isTextEvent, List.filter_append]

/-- Claim C9 (counterexample): a transcribe invocation whose upload
fails still runs the submission and the fetch, yields one failure
message per failed step and then the final text message with no
content: four message events in one invocation, not exactly one
outcome. -/
theorem failed_pipeline_emits_multiple_outcomes :
    transcribeInvoke
        { language_code := none, identify_language := true,
          identify_multiple_languages := false, language_options := none,
          s3_bucket_name := some "bkt" }
        (none, "Failed to download file from URL after 3 attempts: timeout")
        (none, some "Error: boom")
        (none, some "Failed to download transcript file after 3 attempts: timeout")
      = [.uploadCall,
         .text (some "Failed to download file from URL after 3 attempts: timeout"),
         .submitCall, .text (some "Error: boom"), .fetchCall,
         .text (some "Failed to download transcript file after 3 attempts: timeout"),
         .text none]
  ∧ ((transcribeInvoke
        { language_code := none, identify_language := true,
          identify_multiple_languages := false, language_options := none,
          s3_bucket_name := some "bkt" }
        (none, "Failed to download file from URL after 3 attempts: timeout")
        (none, some "Error: boom")
        (none, some "Failed to download transcript file after 3 attempts: timeout")
      ).filter isTextEvent).length = 4 := by
  refine ⟨rfl, rfl⟩

/-- Claim C10 (amended): the DynamoDB create-table path treats a
ResourceInUseException as a non-fatal success alias (the already-exists
text, yielded like the created text, with no Error prefix), while every
other ClientError surfaces as an Error message; the S3 create-bucket
path has no such alias: every ClientError of create_bucket — the
already-exists responses included — is reported as a
failed-to-create failure description. -/
theorem create_if_absent_already_exists_behaviour :
    (∀ t m : String,
        dynamoCreateTableInvoke t (.clientError "ResourceInUseException" m)
          = [.textMsg ("Table " ++ t ++ " already exists")])
  ∧ (∀ t : String,
        dynamoCreateTableInvoke t .ok
          = [.textMsg ("Table " ++ t ++ " created successfully")])
  ∧ (∀ t m : String, m ≠ "" →
        dynamoCreateTableInvoke t (.clientError "AccessDeniedException" m)
          = [.textMsg ("Error: "
              ++ clientErrorStr "AccessDeniedException" "CreateTable" m)])
  ∧ (∀ (r a : Option String) (b m : String), pyStrip b ≠ "" →
        s3CreateBucketInvoke none (some b) r a (.clientError m)
          = [.textMsg ("Failed to create bucket: " ++ m)]) := by
  refine ⟨?_, ?_, ?_, ?_⟩
  · intro t m
    rfl
  · intro t
    rfl
  · intro t m _
    rfl
  · intro r a b m h
    simp [s3CreateBucketInvoke, h]

/-- Claim C10 (counterexample): an already-exists ClientError from
create_bucket (BucketAlreadyOwnedByYou) is yielded as a
failed-to-create failure description, with no success payload. -/
theorem s3_bucket_already_exists_reports_failure :
    s3CreateBucketInvoke none (some "mybucket") (some "us-east-1") none
        (.clientError
          "Your previous request to create the named bucket succeeded and you already own it.")
      = [.textMsg ("Failed to create bucket: Your previous request to create the named bucket succeeded and you already own it.")]
  ∧ S3Event.jsonMsg
      ∉ s3CreateBucketInvoke none (some "mybucket") (some "us-east-1") none
          (.clientError
            "Your previous request to create the named bucket succeeded and you already own it.") := by
  refine ⟨rfl, by decide⟩

end AwsPlugin
